import Mathlib

/-!
Shallow embedding of the ComputeHive Python SDK client
(`sdk/python/computehive/client.py`) and verification of its
specification claims.

Python dictionaries are embedded as association lists in insertion
order; `None` becomes `Option.none`; Python truthiness on strings and
numbers is made explicit.  Every exception `raise` site of the source
becomes one constructor of `SdkError`.
-/

namespace ComputeHive

/-- JSON-like values appearing in request/response bodies. -/
inductive JValue where
  | str : String → JValue
  | int : Int → JValue
  | rat : Rat → JValue
  | bool : Bool → JValue
  | list : List JValue → JValue
  | obj : List (String × JValue) → JValue
deriving Repr

/-- Lookup of a key in an association-list dictionary (Python `d.get(k)` /
`k in d`). -/
def jlookup (d : List (String × JValue)) (k : String) : Option JValue :=
  match d with
  | [] => none
  | (k', v) :: rest => if k' = k then some v else jlookup rest k

/-- `job.get(k)` on a JSON object; `none` on non-objects. -/
def jget (j : JValue) (k : String) : Option JValue :=
  match j with
  | .obj fields => jlookup fields k
  | _ => none

/-- The keys of a dictionary. -/
def jkeys (d : List (String × JValue)) : List String := d.map Prod.fst

/-- One constructor per `raise` site in `client.py` (plus Python's own
`KeyError` for the `job['id']` / `result['status']` subscripts in
`quick_run_docker`). -/
inductive SdkError where
  /-- `AuthenticationError` raised in `__init__` when the key is missing. -/
  | authMissingKey
  /-- `AuthenticationError` raised on a 401 response. -/
  | authInvalidKey
  /-- `ComputeHiveError(f"Bad request: {e.response.text}")` on a 400 response. -/
  | badRequest (body : String)
  /-- `ComputeHiveError(f"API request failed: {e}")` on another `HTTPError`. -/
  | apiRequestFailed (status : Nat)
  /-- `ComputeHiveError(f"Network error: {e}")` on a `RequestException`
  (this includes `requests.exceptions.RetryError` from retry exhaustion). -/
  | networkError (detail : String)
  /-- `JobError` raised by `wait_for_job` on deadline expiry. -/
  | jobTimeout (jobId : String) (timeout : Nat)
  /-- `JobError(f"Job failed with status: {result['status']}")` in
  `quick_run_docker`. -/
  | jobFailed (status : String)
  /-- Python `KeyError` from a dictionary subscript. -/
  | keyError (key : String)
deriving Repr, DecidableEq

/-! ## Value model: enums and dataclasses -/

/-- `class JobType(Enum)` — the four supported job types. -/
inductive JobType where
  | DOCKER | BINARY | SCRIPT | WASM
deriving Repr, DecidableEq

/-- `JobType.value`: the wire string of each variant. -/
def JobType.value : JobType → String
  | .DOCKER => "docker"
  | .BINARY => "binary"
  | .SCRIPT => "script"
  | .WASM => "wasm"

/-- `class JobStatus(Enum)`. -/
inductive JobStatus where
  | PENDING | SCHEDULED | RUNNING | COMPLETED | FAILED | CANCELLED
deriving Repr, DecidableEq

def JobStatus.value : JobStatus → String
  | .PENDING => "pending"
  | .SCHEDULED => "scheduled"
  | .RUNNING => "running"
  | .COMPLETED => "completed"
  | .FAILED => "failed"
  | .CANCELLED => "cancelled"

/-- `@dataclass ResourceRequirements` with the source's defaults. -/
structure ResourceRequirements where
  cpu_cores : Int
  memory_mb : Int
  gpu_count : Int := 0
  gpu_type : Option String := none
  storage_mb : Int := 1024
  network_mbps : Int := 100
  trusted_exec : Bool := false
  capabilities : Option (List String) := none
deriving Repr

/-- Entry kept only when the value is not `None` (the `to_dict` filter). -/
def keepSome (k : String) (v : Option JValue) : List (String × JValue) :=
  match v with
  | none => []
  | some v => [(k, v)]

/-- `ResourceRequirements.to_dict`: `asdict` in field order, dropping
`None`-valued fields. -/
def ResourceRequirements.to_dict (r : ResourceRequirements) :
    List (String × JValue) :=
  [("cpu_cores", JValue.int r.cpu_cores), ("memory_mb", JValue.int r.memory_mb),
   ("gpu_count", JValue.int r.gpu_count)]
  ++ keepSome "gpu_type" (r.gpu_type.map JValue.str)
  ++ [("storage_mb", JValue.int r.storage_mb),
      ("network_mbps", JValue.int r.network_mbps),
      ("trusted_exec", JValue.bool r.trusted_exec)]
  ++ keepSome "capabilities"
      (r.capabilities.map (fun l => JValue.list (l.map JValue.str)))

/-- `@dataclass SLARequirements`. -/
structure SLARequirements where
  max_latency_ms : Option Int := none
  min_availability : Option Rat := none
  max_cost_per_hour : Option Rat := none
  preferred_regions : Option (List String) := none
deriving Repr

def SLARequirements.to_dict (s : SLARequirements) : List (String × JValue) :=
  keepSome "max_latency_ms" (s.max_latency_ms.map JValue.int)
  ++ keepSome "min_availability" (s.min_availability.map JValue.rat)
  ++ keepSome "max_cost_per_hour" (s.max_cost_per_hour.map JValue.rat)
  ++ keepSome "preferred_regions"
      (s.preferred_regions.map (fun l => JValue.list (l.map JValue.str)))

/-- `@dataclass JobPayload` — flat record with variant-specific optional
fields. -/
structure JobPayload where
  image : Option String := none
  command : Option (List String) := none
  env : Option (List String) := none
  binary_url : Option String := none
  args : Option (List String) := none
  script : Option String := none
  language : Option String := none
  input_data : Option String := none
  output_path : Option String := none
deriving Repr

/-- `JobPayload.to_dict`: `asdict` in field order, dropping `None`-valued
fields (and only those). -/
def JobPayload.to_dict (p : JobPayload) : List (String × JValue) :=
  keepSome "image" (p.image.map JValue.str)
  ++ keepSome "command" (p.command.map (fun l => JValue.list (l.map JValue.str)))
  ++ keepSome "env" (p.env.map (fun l => JValue.list (l.map JValue.str)))
  ++ keepSome "binary_url" (p.binary_url.map JValue.str)
  ++ keepSome "args" (p.args.map (fun l => JValue.list (l.map JValue.str)))
  ++ keepSome "script" (p.script.map JValue.str)
  ++ keepSome "language" (p.language.map JValue.str)
  ++ keepSome "input_data" (p.input_data.map JValue.str)
  ++ keepSome "output_path" (p.output_path.map JValue.str)

/-! ## Request construction -/

/-- A request handed to `_make_request(method, endpoint, data, params)`. -/
structure Request where
  method : String
  endpoint : String
  data : Option (List (String × JValue)) := none
  params : Option (List (String × JValue)) := none
deriving Repr

/-- Keyword arguments forwarded through `**kwargs` to `submit_job`, with
the source's defaults. -/
structure SubmitKwargs where
  priority : Int := 5
  timeout : Int := 3600
  max_retries : Int := 3
  sla_requirements : Option SLARequirements := none
deriving Repr

/-- The body dictionary built by `submit_job` and the request it hands to
the transport (`POST /api/v1/jobs`). -/
def submit_job_request (job_type : JobType) (requirements : ResourceRequirements)
    (payload : JobPayload) (kw : SubmitKwargs) : Request :=
  let data :=
    [("type", JValue.str job_type.value),
     ("requirements", JValue.obj requirements.to_dict),
     ("payload", JValue.obj payload.to_dict),
     ("priority", JValue.int kw.priority),
     ("timeout", JValue.int kw.timeout),
     ("max_retries", JValue.int kw.max_retries)]
  let data := data ++
    (match kw.sla_requirements with
     | some sla => [("sla_requirements", JValue.obj sla.to_dict)]
     | none => [])
  { method := "POST", endpoint := "/api/v1/jobs", data := some data }

/-- `submit_docker_job`: flattens `env` to `KEY=VALUE` strings
(`[] ` when `env` is `None`), builds the requirements and payload, and
submits a `JobType.DOCKER` job. -/
def submit_docker_job_request (image : String) (command : List String)
    (cpu_cores : Int := 1) (memory_mb : Int := 1024) (gpu_count : Int := 0)
    (env : Option (List (String × String)) := none)
    (kw : SubmitKwargs := {}) : Request :=
  let env_list := (env.getD []).map (fun kv => kv.1 ++ "=" ++ kv.2)
  let requirements : ResourceRequirements :=
    { cpu_cores := cpu_cores, memory_mb := memory_mb, gpu_count := gpu_count }
  let payload : JobPayload :=
    { image := some image, command := some command, env := some env_list }
  submit_job_request JobType.DOCKER requirements payload kw

/-- Python truthiness of an optional integer argument (`if x:`). -/
def truthyInt : Option Int → Bool
  | none => false
  | some v => v != 0

/-- Python truthiness of an optional float argument (`if x:`). -/
def truthyRat : Option Rat → Bool
  | none => false
  | some v => v != 0

/-- Python truthiness of an optional string argument (`if x:`). -/
def truthyStr : Option String → Bool
  | none => false
  | some s => s != ""

/-- The query dictionary built by `get_marketplace_offers`: each
parameter is added only when its argument is truthy. -/
def get_marketplace_offers_params (min_cpu : Option Int := none)
    (min_memory : Option Int := none) (max_price : Option Rat := none)
    (region : Option String := none) : List (String × JValue) :=
  (if truthyInt min_cpu then [("min_cpu", JValue.int (min_cpu.getD 0))] else [])
  ++ (if truthyInt min_memory then
        [("min_memory", JValue.int (min_memory.getD 0))] else [])
  ++ (if truthyRat max_price then
        [("max_price", JValue.rat (max_price.getD 0))] else [])
  ++ (if truthyStr region then
        [("region", JValue.str (region.getD ""))] else [])

/-! ## Transport: session with retry logic, `_make_request` -/

/-- `urllib3.util.retry.Retry.DEFAULT_ALLOWED_METHODS`: the idempotent
methods eligible for status-based retries.  `POST` is not among them. -/
def DEFAULT_ALLOWED_METHODS : List String :=
  ["HEAD", "GET", "PUT", "DELETE", "OPTIONS", "TRACE"]

/-- The `urllib3.util.retry.Retry` strategy as constructed in
`__init__`: `Retry(total=max_retries, backoff_factor=1,
status_forcelist=[429, 500, 502, 503, 504])`; `allowed_methods` is not
passed and keeps urllib3's default. -/
structure RetryStrategy where
  total : Nat
  backoff_factor : Nat
  status_forcelist : List Nat
  allowed_methods : List String
deriving Repr, DecidableEq

/-- The retry strategy `__init__` installs for a given `max_retries`. -/
def clientRetryStrategy (max_retries : Nat) : RetryStrategy :=
  { total := max_retries, backoff_factor := 1,
    status_forcelist := [429, 500, 502, 503, 504],
    allowed_methods := DEFAULT_ALLOWED_METHODS }

/-- One HTTP response from the server: a status code, the decoded JSON
body (returned on success), and the raw text (carried by error
messages). -/
structure HttpResponse where
  status : Nat
  body : JValue := JValue.obj []
  text : String := ""
deriving Repr

/-- Outcome of `session.request` with the mounted retry adapter: either a
response that was handed back to `_make_request`, or a
`requests.exceptions.RetryError` (a `RequestException`) from
`urllib3.Retry` exhaustion.  Both variants record how many attempts
reached the server. -/
inductive SessionOutcome where
  | response (r : HttpResponse) (attempts : Nat)
  | retryError (lastStatus : Nat) (attempts : Nat)
deriving Repr

/-- The `urllib3` retry loop.  Attempt `i` asks the server; per
`Retry.is_retry` the response triggers a status retry only when the
request method is in `allowed_methods` *and* the status is in the
forcelist (responses are modelled without a `Retry-After` header; the
method test comes first in `is_retry`, so it gates in any case).  A
retry consumes one unit of the budget, and `MaxRetryError` is raised
once the budget is exhausted; any other response is handed back to the
caller — in particular a forcelist status on a non-idempotent method
such as `POST` comes back after the first attempt. -/
def sessionLoop (server : Nat → HttpResponse) (method : String)
    (forcelist : List Nat) (allowed : List String) :
    Nat → Nat → SessionOutcome
  | i, budget =>
    let r := server i
    if method ∈ allowed ∧ r.status ∈ forcelist then
      match budget with
      | 0 => .retryError r.status (i + 1)
      | b + 1 => sessionLoop server method forcelist allowed (i + 1) b
    else
      .response r (i + 1)

/-- `self.session.request(method, ...)` under the mounted retry
strategy. -/
def sessionRequest (server : Nat → HttpResponse) (method : String)
    (strategy : RetryStrategy) : SessionOutcome :=
  sessionLoop server method strategy.status_forcelist
    strategy.allowed_methods 0 strategy.total

/-- `_make_request`: runs the session request, then
`response.raise_for_status()` and the error-classification branches.
`raise_for_status` raises `HTTPError` exactly for statuses in
[400, 600); retry exhaustion surfaces as a `RequestException` and is
caught by the `Network error` branch. -/
def makeRequest (server : Nat → HttpResponse) (method : String)
    (strategy : RetryStrategy) : Except SdkError JValue :=
  match sessionRequest server method strategy with
  | .retryError s _ =>
      .error (.networkError ("too many " ++ toString s ++ " error responses"))
  | .response r _ =>
      if 400 ≤ r.status ∧ r.status < 600 then
        if r.status = 401 then .error .authInvalidKey
        else if r.status = 400 then .error (.badRequest r.text)
        else .error (.apiRequestFailed r.status)
      else
        .ok r.body

/-- The number of attempts the transport issued for a request. -/
def requestAttempts (server : Nat → HttpResponse) (method : String)
    (strategy : RetryStrategy) : Nat :=
  match sessionRequest server method strategy with
  | .retryError _ n => n
  | .response _ n => n

/-! ## Client construction (`__init__`) -/

/-- The process environment, as an association list. -/
def Env := List (String × String)

/-- `os.getenv(name)`. -/
def getenv (env : Env) (name : String) : Option String :=
  match env with
  | [] => none
  | (k, v) :: rest => if k = name then some v else getenv rest name

/-- `os.getenv(name, default)`. -/
def getenvD (env : Env) (name default : String) : String :=
  (getenv env name).getD default

/-- Python `a or b` on an optional string and a plain string: the left
operand wins when truthy (non-`None`, non-empty). -/
def pyOrStr (a : Option String) (b : String) : String :=
  match a with
  | some s => if s ≠ "" then s else b
  | none => b

/-- Python `a or b` on two optional strings. -/
def pyOrOptStr (a b : Option String) : Option String :=
  match a with
  | some s => if s ≠ "" then some s else b
  | none => b

/-- A constructed client: configuration plus the session it owns. -/
structure Client where
  api_url : String
  api_key : String
  retry_strategy : RetryStrategy
  headers : List (String × String)
  timeout : Nat
deriving Repr

/-- `ComputeHiveClient.__init__`.  Returns the constructed client, or
the `AuthenticationError` raised when the resolved key is falsy; the
second component counts the sessions created (the raise happens before
`requests.Session()` runs, so the error path creates none). -/
def clientInit (env : Env) (api_url api_key : Option String)
    (timeout : Nat := 30) (max_retries : Nat := 3) :
    Except SdkError Client × Nat :=
  let url := pyOrStr api_url (getenvD env "COMPUTEHIVE_API_URL" "https://api.computehive.io")
  let key := pyOrOptStr api_key (getenv env "COMPUTEHIVE_API_KEY")
  match key with
  | none => (.error .authMissingKey, 0)
  | some k =>
      if k = "" then (.error .authMissingKey, 0)
      else
        (.ok { api_url := url, api_key := k,
               retry_strategy := clientRetryStrategy max_retries,
               headers := [("Authorization", "Bearer " ++ k),
                           ("Content-Type", "application/json"),
                           ("User-Agent", "ComputeHive-Python-SDK/1.0.0")],
               timeout := timeout }, 1)

/-! ## Polling engine (`wait_for_job`) -/

/-- The terminal statuses tested by `wait_for_job`:
`status in ["completed", "failed", "cancelled"]`. -/
def terminal_statuses : List String := ["completed", "failed", "cancelled"]

/-- `job.get("status") in ["completed", "failed", "cancelled"]` — a
non-string (or missing) status never matches. -/
def isTerminal (job : JValue) : Bool :=
  match jget job "status" with
  | some (.str s) => terminal_statuses.contains s
  | _ => false

/-- Observable events of one `wait_for_job` run: number of `get_job`
probes issued, the job records the callback was invoked on (in order),
and the number of `time.sleep(poll_interval)` calls. -/
structure WaitTrace where
  probes : Nat
  observed : List JValue
  sleeps : Nat
deriving Repr

/-- `if callback: callback(job)` — the callback's outcome together with
the invocation it records (none when no callback is provided). -/
def cbInvoke (callback : Option (JValue → Except SdkError Unit))
    (job : JValue) : Except SdkError Unit × List JValue :=
  match callback with
  | none => (.ok (), [])
  | some cb => (cb job, [job])

/-- The records a provided callback observes (empty when no callback). -/
def cbTrace (callback : Option (JValue → Except SdkError Unit))
    (jobs : List JValue) : List JValue :=
  match callback with
  | none => []
  | some _ => jobs

/-- The `while time.time() - start_time < timeout` loop of
`wait_for_job`.  Time is modelled by the sleeps alone: iteration `i`
starts at elapsed time `i * poll_interval`, so the loop guard is
`i * poll_interval < timeout`.  `get_job` is an oracle giving the
response of the `i`-th probe (an exception from the probe or from the
callback propagates).  `fuel` bounds the recursion depth; `none` means
the fuel ran out before the loop finished. -/
def waitLoop (get_job : Nat → Except SdkError JValue)
    (callback : Option (JValue → Except SdkError Unit))
    (timeout poll_interval : Nat) (job_id : String) :
    Nat → Nat → Option (Except SdkError JValue × WaitTrace)
  | fuel, i =>
    if i * poll_interval < timeout then
      match fuel with
      | 0 => none
      | fuel + 1 =>
        match get_job i with
        | .error e => some (.error e, ⟨1, [], 0⟩)
        | .ok job =>
          let inv := cbInvoke callback job
          match inv.1 with
          | .error e => some (.error e, ⟨1, inv.2, 0⟩)
          | .ok _ =>
            if isTerminal job then
              some (.ok job, ⟨1, inv.2, 0⟩)
            else
              match waitLoop get_job callback timeout poll_interval job_id fuel (i + 1) with
              | none => none
              | some (res, t) =>
                  some (res, ⟨t.probes + 1, inv.2 ++ t.observed, t.sleeps + 1⟩)
    else
      some (.error (.jobTimeout job_id timeout), ⟨0, [], 0⟩)

/-- `wait_for_job` with the source's defaults (`timeout=3600`,
`poll_interval=5`).  The fuel `timeout + 1` never runs out when
`poll_interval ≥ 1`: the guard fails at the latest at iteration
`timeout`. -/
def wait_for_job (get_job : Nat → Except SdkError JValue) (job_id : String)
    (timeout : Nat := 3600) (poll_interval : Nat := 5)
    (callback : Option (JValue → Except SdkError Unit) := none) :
    Option (Except SdkError JValue × WaitTrace) :=
  waitLoop get_job callback timeout poll_interval job_id (timeout + 1) 0

/-! ## Convenience layer (`quick_run_docker`) -/

/-- Python `f"{v}"` rendering of the JSON values that reach error
messages and path interpolation. -/
def pyStr : JValue → String
  | .str s => s
  | .int n => toString n
  | .rat q => toString q
  | .bool b => if b then "True" else "False"
  | .list _ => "<list>"
  | .obj _ => "<dict>"

/-- `result['status'] == 'completed'`: a Python `==` against the string
literal, false for any non-string value. -/
def statusIsCompleted : JValue → Bool
  | .str s => s = "completed"
  | _ => false

/-- `quick_run_docker`, parametrised by the transport responses it
composes: the `submit_docker_job` response, the `get_job` probe
sequence used by `wait_for_job` (with its defaults), and the
`get_job_result` response.  Returns the call's outcome together with
the number of `get_job` probes issued (`none` when the polling fuel
runs out). -/
def quick_run_docker (image : String) (command : List String)
    (wait : Bool)
    (submit_resp : Except SdkError JValue)
    (get_job_resp : Nat → Except SdkError JValue)
    (result_resp : String → Except SdkError JValue) :
    Option (Except SdkError JValue × Nat) :=
  match submit_resp with
  | .error e => some (.error e, 0)
  | .ok job =>
    if wait then
      match jget job "id" with
      | none => some (.error (.keyError "id"), 0)
      | some idv =>
        let jid := pyStr idv
        match wait_for_job get_job_resp jid with
        | none => none
        | some (.error e, t) => some (.error e, t.probes)
        | some (.ok result, t) =>
          match jget result "status" with
          | none => some (.error (.keyError "status"), t.probes)
          | some sv =>
            if statusIsCompleted sv then some (result_resp jid, t.probes)
            else some (.error (.jobFailed (pyStr sv)), t.probes)
    else
      some (.ok job, 0)

/-! ## Observation helpers (used only to state properties) -/

/-- Lookup of a top-level key in a request's body. -/
def bodyLookup (r : Request) (k : String) : Option JValue :=
  jlookup (r.data.getD []) k

/-- Lookup of a key inside a nested object of a request's body. -/
def jpath (r : Request) (k1 k2 : String) : Option JValue :=
  match bodyLookup r k1 with
  | some (JValue.obj d) => jlookup d k2
  | _ => none

/-- Whether a transport outcome is the api-failure kind (the
`ComputeHiveError(f"API request failed: ...")` raise site). -/
def isApiFailure : Except SdkError JValue → Bool
  | .error (.apiRequestFailed _) => true
  | _ => false

/-! ## Helper lemmas about the polling loop -/

theorem cbTrace_nil (c : Option (JValue → Except SdkError Unit)) :
    cbTrace c [] = [] := by
  cases c <;> rfl

theorem cbTrace_cons (c : Option (JValue → Except SdkError Unit))
    (a : JValue) (l : List JValue) :
    cbTrace c (a :: l) = (cbInvoke c a).2 ++ cbTrace c l := by
  cases c <;> rfl

/-- Unfolding the loop when the guard holds and fuel remains. -/
theorem waitLoop_guard_true (get_job : Nat → Except SdkError JValue)
    (c : Option (JValue → Except SdkError Unit))
    (timeout poll : Nat) (jid : String) (fuel i : Nat)
    (h : i * poll < timeout) :
    waitLoop get_job c timeout poll jid (fuel + 1) i =
      match get_job i with
      | .error e => some (.error e, ⟨1, [], 0⟩)
      | .ok job =>
        match (cbInvoke c job).1 with
        | .error e => some (.error e, ⟨1, (cbInvoke c job).2, 0⟩)
        | .ok _ =>
          if isTerminal job then
            some (.ok job, ⟨1, (cbInvoke c job).2, 0⟩)
          else
            match waitLoop get_job c timeout poll jid fuel (i + 1) with
            | none => none
            | some (res, t) =>
                some (res, ⟨t.probes + 1, (cbInvoke c job).2 ++ t.observed,
                            t.sleeps + 1⟩) := by
  rw [waitLoop.eq_def]
  simp only [if_pos h]

/-- Unfolding the loop when the deadline has expired. -/
theorem waitLoop_guard_false (get_job : Nat → Except SdkError JValue)
    (c : Option (JValue → Except SdkError Unit))
    (timeout poll : Nat) (jid : String) (fuel i : Nat)
    (h : ¬ i * poll < timeout) :
    waitLoop get_job c timeout poll jid fuel i =
      some (.error (.jobTimeout jid timeout), ⟨0, [], 0⟩) := by
  rw [waitLoop.eq_def]
  simp only [if_neg h]

/-- Running the loop through `k` in-deadline, successfully probed,
non-terminal iterations prefixes the trace and continues at `i + k`. -/
theorem waitLoop_compose (get_job : Nat → Except SdkError JValue)
    (c : Option (JValue → Except SdkError Unit))
    (timeout poll : Nat) (jid : String) (f : Nat → JValue) :
    ∀ k fuel i,
    (∀ j, j < k → (i + j) * poll < timeout) →
    (∀ j, j < k → get_job (i + j) = .ok (f (i + j))) →
    (∀ j, j < k → (cbInvoke c (f (i + j))).1 = .ok ()) →
    (∀ j, j < k → isTerminal (f (i + j)) = false) →
    k ≤ fuel →
    waitLoop get_job c timeout poll jid fuel i =
      (waitLoop get_job c timeout poll jid (fuel - k) (i + k)).map
        (fun rt => (rt.1,
          ⟨rt.2.probes + k,
           cbTrace c ((List.range k).map (fun j => f (i + j))) ++ rt.2.observed,
           rt.2.sleeps + k⟩)) := by
  intro k
  induction k with
  | zero =>
      intro fuel i _ _ _ _ _
      simp only [Nat.sub_zero, Nat.add_zero, List.range_zero, List.map_nil,
                 cbTrace_nil, List.nil_append, Nat.add_zero]
      cases waitLoop get_job c timeout poll jid fuel i with
      | none => rfl
      | some rt => rfl
  | succ k ih =>
      intro fuel i hguard hok hcb hnt hfuel
      obtain ⟨fuel, rfl⟩ : ∃ fuel', fuel = fuel' + 1 := by
        cases fuel with
        | zero => exact absurd hfuel (by omega)
        | succ m => exact ⟨m, rfl⟩
      have h0 : i * poll < timeout := by
        have := hguard 0 (Nat.succ_pos k); simpa using this
      rw [waitLoop_guard_true get_job c timeout poll jid fuel i h0]
      have hok0 : get_job i = .ok (f i) := by
        have := hok 0 (Nat.succ_pos k); simpa using this
      have hcb0 : (cbInvoke c (f i)).1 = .ok () := by
        have := hcb 0 (Nat.succ_pos k); simpa using this
      have hnt0 : isTerminal (f i) = false := by
        have := hnt 0 (Nat.succ_pos k); simpa using this
      rw [hok0]
      simp only [hcb0, hnt0, if_neg (Bool.false_ne_true)]
      have ihk := ih fuel (i + 1)
        (fun j hj => by
          have h := hguard (j + 1) (by omega)
          have he : i + (j + 1) = i + 1 + j := by omega
          rwa [he] at h)
        (fun j hj => by have := hok (j + 1) (by omega)
                        simpa [Nat.add_comm, Nat.add_left_comm] using this)
        (fun j hj => by have := hcb (j + 1) (by omega)
                        simpa [Nat.add_comm, Nat.add_left_comm] using this)
        (fun j hj => by have := hnt (j + 1) (by omega)
                        simpa [Nat.add_comm, Nat.add_left_comm] using this)
        (by omega)
      rw [ihk]
      have harith : i + 1 + k = i + (k + 1) := by omega
      have hfuel' : fuel - k = fuel + 1 - (k + 1) := by omega
      rw [harith, hfuel']
      cases waitLoop get_job c timeout poll jid (fuel + 1 - (k + 1)) (i + (k + 1)) with
      | none => rfl
      | some rt =>
          have hobs : cbTrace c ((List.range (k + 1)).map (fun j => f (i + j))) =
              (cbInvoke c (f i)).2 ++
                cbTrace c ((List.range k).map (fun j => f (i + 1 + j))) := by
            rw [List.range_succ_eq_map, List.map_cons, cbTrace_cons]
            refine congrArg _ (congrArg (cbTrace c) ?_)
            rw [List.map_map]
            refine congrArg (fun g => List.map g (List.range k))
              (funext fun j => ?_)
            simp only [Function.comp]
            refine congrArg f (by omega)
          simp only [Option.map_some', hobs, List.append_assoc,
                     Option.some.injEq, Prod.mk.injEq, WaitTrace.mk.injEq]
          exact ⟨trivial, by omega, trivial, by omega⟩

theorem cbTrace_append (c : Option (JValue → Except SdkError Unit))
    (a b : List JValue) :
    cbTrace c (a ++ b) = cbTrace c a ++ cbTrace c b := by
  cases c <;> rfl

theorem cbInvoke_snd (c : Option (JValue → Except SdkError Unit))
    (j : JValue) : (cbInvoke c j).2 = cbTrace c [j] := by
  cases c <;> rfl

theorem cbTrace_range_succ (c : Option (JValue → Except SdkError Unit))
    (f : Nat → JValue) (i k : Nat) :
    cbTrace c ((List.range (k + 1)).map (fun j => f (i + j))) =
      (cbInvoke c (f i)).2 ++
        cbTrace c ((List.range k).map (fun j => f (i + 1 + j))) := by
  rw [List.range_succ_eq_map, List.map_cons, cbTrace_cons]
  refine congrArg _ (congrArg (cbTrace c) ?_)
  rw [List.map_map]
  refine congrArg (fun g => List.map g (List.range k)) (funext fun j => ?_)
  simp only [Function.comp]
  refine congrArg f (by omega)

/-- When every probe succeeds with a non-terminal record and the
callback never fails, the loop ends by raising the job-timeout error;
the number of sleeps is the first `N` whose cumulative sleep reaches
the deadline. -/
theorem waitLoop_timeout (get_job : Nat → Except SdkError JValue)
    (c : Option (JValue → Except SdkError Unit))
    (timeout poll : Nat) (jid : String) (f : Nat → JValue)
    (hok : ∀ j, get_job j = .ok (f j))
    (hcb : ∀ j, (cbInvoke c (f j)).1 = .ok ())
    (hnt : ∀ j, isTerminal (f j) = false) :
    ∀ fuel i, timeout + poll ≤ (i + fuel) * poll →
    ∃ N, waitLoop get_job c timeout poll jid fuel i =
        some (.error (.jobTimeout jid timeout),
          ⟨N, cbTrace c ((List.range N).map (fun j => f (i + j))), N⟩) ∧
      timeout ≤ (i + N) * poll ∧ (N = 0 ∨ (i + N - 1) * poll < timeout) := by
  intro fuel
  induction fuel with
  | zero =>
      intro i hbound
      have hg : ¬ i * poll < timeout := by
        simp only [Nat.add_zero] at hbound; omega
      refine ⟨0, ?_, ?_, Or.inl rfl⟩
      · rw [waitLoop_guard_false get_job c timeout poll jid 0 i hg]
        simp [cbTrace_nil]
      · simp only [Nat.add_zero]; omega
  | succ fuel ih =>
      intro i hbound
      by_cases hg : i * poll < timeout
      · rw [waitLoop_guard_true get_job c timeout poll jid fuel i hg, hok i]
        simp only [hcb i, hnt i, if_neg (Bool.false_ne_true)]
        obtain ⟨N, hrec, hlo, hhi⟩ := ih (i + 1) (by
          have : i + 1 + fuel = i + (fuel + 1) := by omega
          rw [this]; exact hbound)
        rw [hrec]
        refine ⟨N + 1, ?_, ?_, ?_⟩
        · rw [cbTrace_range_succ c f i N]
        · have h : i + (N + 1) = i + 1 + N := by omega
          rw [h]; exact hlo
        · refine Or.inr ?_
          rcases hhi with h | h
          · subst h
            simpa using hg
          · have he : i + (N + 1) - 1 = i + 1 + N - 1 := by omega
            rw [he]; exact h
      · refine ⟨0, ?_, ?_, Or.inl rfl⟩
        · rw [waitLoop_guard_false get_job c timeout poll jid (fuel + 1) i hg]
          simp [cbTrace_nil]
        · simp only [Nat.add_zero]; omega

/-! ## Helper lemmas about the transport retry loop -/

/-- A response that `is_retry` declines — status outside the forcelist,
or a method outside `allowed_methods` — is handed back after this
attempt. -/
theorem sessionLoop_not_forced (server : Nat → HttpResponse)
    (method : String) (forcelist : List Nat) (allowed : List String)
    (i budget : Nat)
    (h : ¬ (method ∈ allowed ∧ (server i).status ∈ forcelist)) :
    sessionLoop server method forcelist allowed i budget
      = .response (server i) (i + 1) := by
  rw [sessionLoop.eq_def]
  simp only [if_neg h]

theorem sessionLoop_forced_step (server : Nat → HttpResponse)
    (method : String) (forcelist : List Nat) (allowed : List String)
    (i budget : Nat)
    (hm : method ∈ allowed) (h : (server i).status ∈ forcelist) :
    sessionLoop server method forcelist allowed i (budget + 1) =
      sessionLoop server method forcelist allowed (i + 1) budget := by
  rw [sessionLoop.eq_def]
  simp only [if_pos (And.intro hm h)]

theorem sessionLoop_forced_exhausted (server : Nat → HttpResponse)
    (method : String) (forcelist : List Nat) (allowed : List String)
    (i : Nat) (hm : method ∈ allowed) (h : (server i).status ∈ forcelist) :
    sessionLoop server method forcelist allowed i 0
      = .retryError (server i).status (i + 1) := by
  rw [sessionLoop.eq_def]
  simp only [if_pos (And.intro hm h)]

/-- For a retryable method, a server whose every response has a
forcelist status exhausts the whole budget: `budget + 1` attempts,
ending in `MaxRetryError`. -/
theorem sessionLoop_all_forced (server : Nat → HttpResponse)
    (method : String) (forcelist : List Nat) (allowed : List String)
    (hm : method ∈ allowed) (hall : ∀ j, (server j).status ∈ forcelist) :
    ∀ budget i, sessionLoop server method forcelist allowed i budget =
      .retryError (server (i + budget)).status (i + budget + 1) := by
  intro budget
  induction budget with
  | zero =>
      intro i
      rw [sessionLoop_forced_exhausted server method forcelist allowed i hm
        (hall i)]
      simp
  | succ b ih =>
      intro i
      rw [sessionLoop_forced_step server method forcelist allowed i b hm
        (hall i), ih (i + 1)]
      have h : i + 1 + b = i + (b + 1) := by omega
      rw [h]

/-- Running the polling loop to the first terminal record: `k + 1`
probes, `k` sleeps, callback invoked on every observed record, the
terminal record returned. -/
theorem wait_for_job_first_terminal (get_job : Nat → Except SdkError JValue)
    (f : Nat → JValue) (c : Option (JValue → Except SdkError Unit))
    (jid : String) (timeout poll k : Nat)
    (hok : ∀ j, j ≤ k → get_job j = .ok (f j))
    (hcb : ∀ j, j ≤ k → (cbInvoke c (f j)).1 = .ok ())
    (hnt : ∀ j, j < k → isTerminal (f j) = false)
    (hterm : isTerminal (f k) = true)
    (htime : k * poll < timeout) (hfuel : k ≤ timeout) :
    wait_for_job get_job jid timeout poll c =
      some (.ok (f k), ⟨k + 1, cbTrace c ((List.range (k + 1)).map f), k⟩) := by
  unfold wait_for_job
  have hcomp := waitLoop_compose get_job c timeout poll jid f k (timeout + 1) 0
    (fun j hj => by
      simp only [Nat.zero_add]
      calc j * poll ≤ k * poll := Nat.mul_le_mul_right poll (by omega)
        _ < timeout := htime)
    (fun j hj => by simpa using hok j (by omega))
    (fun j hj => by simpa using hcb j (by omega))
    (fun j hj => by simpa using hnt j (by omega))
    (by omega)
  rw [hcomp]
  simp only [Nat.zero_add]
  obtain ⟨f', hf'⟩ : ∃ m, timeout + 1 - k = m + 1 := ⟨timeout - k, by omega⟩
  rw [hf']
  rw [waitLoop_guard_true get_job c timeout poll jid f' k htime]
  rw [hok k (Nat.le_refl k)]
  simp only [hcb k (Nat.le_refl k), hterm, if_pos]
  simp only [Option.map_some', Option.some.injEq, Prod.mk.injEq,
             WaitTrace.mk.injEq]
  refine ⟨trivial, by omega, ?_, by omega⟩
  rw [cbInvoke_snd, ← cbTrace_append, List.range_succ, List.map_append,
      List.map_singleton]

/-! ## Claim theorems -/

/-- C1 (counterexample): the S1 container submission's POST body carries
`type="docker"` (the `JobType.DOCKER` wire value), not
`"container-image"` as the claim states. -/
theorem submit_docker_type_not_container_image :
    bodyLookup (submit_docker_job_request "alpine" ["echo", "ok"] 2 512) "type"
      = some (JValue.str "docker") ∧
    bodyLookup (submit_docker_job_request "alpine" ["echo", "ok"] 2 512) "type"
      ≠ some (JValue.str "container-image") := by
  refine ⟨rfl, fun h => ?_⟩
  rw [show bodyLookup (submit_docker_job_request "alpine" ["echo", "ok"] 2 512)
        "type" = some (JValue.str "docker") from rfl] at h
  injection h with h1
  injection h1 with h2
  exact absurd h2 (by decide)

/-- C1 (amended): the S1 container submission (`image="alpine"`,
`command=["echo","ok"]`, `cpu_cores=2`, `memory_mb=512`, no other
options) POSTs to `/api/v1/jobs` a body with `type="docker"`,
`requirements.cpu_cores=2`, `payload.image="alpine"`,
`payload.command=["echo","ok"]`, `priority=5`, `timeout=3600`, and
`max_retries=3`. -/
theorem submit_docker_s1_body :
    (submit_docker_job_request "alpine" ["echo", "ok"] 2 512).method = "POST" ∧
    (submit_docker_job_request "alpine" ["echo", "ok"] 2 512).endpoint
      = "/api/v1/jobs" ∧
    bodyLookup (submit_docker_job_request "alpine" ["echo", "ok"] 2 512) "type"
      = some (JValue.str "docker") ∧
    jpath (submit_docker_job_request "alpine" ["echo", "ok"] 2 512)
      "requirements" "cpu_cores" = some (JValue.int 2) ∧
    jpath (submit_docker_job_request "alpine" ["echo", "ok"] 2 512)
      "payload" "image" = some (JValue.str "alpine") ∧
    jpath (submit_docker_job_request "alpine" ["echo", "ok"] 2 512)
      "payload" "command"
      = some (JValue.list [JValue.str "echo", JValue.str "ok"]) ∧
    bodyLookup (submit_docker_job_request "alpine" ["echo", "ok"] 2 512)
      "priority" = some (JValue.int 5) ∧
    bodyLookup (submit_docker_job_request "alpine" ["echo", "ok"] 2 512)
      "timeout" = some (JValue.int 3600) ∧
    bodyLookup (submit_docker_job_request "alpine" ["echo", "ok"] 2 512)
      "max_retries" = some (JValue.int 3) :=
  ⟨rfl, rfl, rfl, rfl, rfl, rfl, rfl, rfl, rfl⟩

/-- C10: `submit_docker_job` with `env=None` still serializes the
payload with key `env` bound to the empty list (the `to_dict` filter
drops only `None` fields and the flattened env list is `[]`); hence
every payload this helper builds contains the `env` key. -/
theorem docker_payload_env_always_present (image : String)
    (command : List String) (cpu mem gpu : Int) (kw : SubmitKwargs) :
    jpath (submit_docker_job_request image command cpu mem gpu none kw)
        "payload" "env" = some (JValue.list []) ∧
    ∀ env : Option (List (String × String)),
      (jpath (submit_docker_job_request image command cpu mem gpu env kw)
        "payload" "env").isSome = true :=
  ⟨rfl, fun _ => rfl⟩

/-- C5 (counterexample): `get_marketplace_offers(min_cpu=0)` sends no
`min_cpu` query parameter at all — the falsy-but-meaningful value is
dropped, refuting the claim that it is sent. -/
theorem marketplace_zero_min_cpu_omitted :
    get_marketplace_offers_params (some 0) none none none = [] ∧
    jlookup (get_marketplace_offers_params (some 0) none none none) "min_cpu"
      = none :=
  ⟨rfl, rfl⟩

/-- C5 (amended): a query parameter of `get_marketplace_offers` is
omitted exactly when its argument is unset *or falsy* (`0`, `0.0`,
`""`); in particular `min_cpu=2` alone yields exactly the query
`min_cpu=2` with none of the other keys. -/
theorem marketplace_query_truthiness :
    (∀ (min_cpu min_memory : Option Int) (max_price : Option Rat)
       (region : Option String),
      jlookup (get_marketplace_offers_params min_cpu min_memory max_price region)
          "min_cpu"
        = (if truthyInt min_cpu then some (JValue.int (min_cpu.getD 0)) else none) ∧
      jlookup (get_marketplace_offers_params min_cpu min_memory max_price region)
          "min_memory"
        = (if truthyInt min_memory then some (JValue.int (min_memory.getD 0)) else none) ∧
      jlookup (get_marketplace_offers_params min_cpu min_memory max_price region)
          "max_price"
        = (if truthyRat max_price then some (JValue.rat (max_price.getD 0)) else none) ∧
      jlookup (get_marketplace_offers_params min_cpu min_memory max_price region)
          "region"
        = (if truthyStr region then some (JValue.str (region.getD "")) else none)) ∧
    get_marketplace_offers_params (some 2) none none none
      = [("min_cpu", JValue.int 2)] := by
  refine ⟨fun a b c d => ?_, rfl⟩
  cases h1 : truthyInt a <;> cases h2 : truthyInt b <;>
    cases h3 : truthyRat c <;> cases h4 : truthyStr d <;>
    simp [get_marketplace_offers_params, jlookup, h1, h2, h3, h4]

/-- C8: constructing a client with no `api_key` argument and no
`COMPUTEHIVE_API_KEY` environment variable raises the authentication
error, and creates no session (the raise precedes `requests.Session()`,
so the session count is 0). -/
theorem client_init_missing_key (env : Env) (url : Option String)
    (timeout max_retries : Nat)
    (henv : getenv env "COMPUTEHIVE_API_KEY" = none) :
    clientInit env url none timeout max_retries
      = (.error .authMissingKey, 0) := by
  simp [clientInit, pyOrOptStr, henv]

/-- Witness for C8 at the empty environment. -/
theorem client_init_missing_key_witness :
    getenv [] "COMPUTEHIVE_API_KEY" = none ∧
    clientInit [] none none 30 3 = (.error .authMissingKey, 0) :=
  ⟨rfl, client_init_missing_key [] none 30 3 rfl⟩

/-- C9: an empty-string `api_key` behaves exactly as a missing one (the
presence check is Python falsiness, and `api_key or os.getenv(...)`
discards an empty argument): an explicit `""` argument yields the same
outcome as passing nothing, and an empty environment value with no
argument raises the authentication error with no session created. -/
theorem client_init_empty_key (env : Env) (url : Option String)
    (timeout max_retries : Nat) :
    clientInit env url (some "") timeout max_retries
      = clientInit env url none timeout max_retries ∧
    (getenv env "COMPUTEHIVE_API_KEY" = some "" →
      clientInit env url none timeout max_retries
        = (.error .authMissingKey, 0)) := by
  constructor
  · simp [clientInit, pyOrOptStr]
  · intro h
    simp [clientInit, pyOrOptStr, h]

/-- Witness for C9: empty env value, and the explicit-`""` equivalence,
at a concrete environment. -/
theorem client_init_empty_key_witness :
    clientInit [("COMPUTEHIVE_API_KEY", "")] none (some "") 30 3
      = clientInit [("COMPUTEHIVE_API_KEY", "")] none none 30 3 ∧
    clientInit [("COMPUTEHIVE_API_KEY", "")] none none 30 3
      = (.error .authMissingKey, 0) :=
  ⟨(client_init_empty_key [("COMPUTEHIVE_API_KEY", "")] none 30 3).1,
   (client_init_empty_key [("COMPUTEHIVE_API_KEY", "")] none 30 3).2 rfl⟩

/-- C7: for any HTTP method, an HTTP 400 answer fails on the first
attempt with no retry, raising the bad-request error carrying the
response body; a 401 answer raises the authentication error, likewise
on the first attempt (400 and 401 are outside the retry forcelist, so
`is_retry` declines them whatever the method). -/
theorem http_400_401_no_retry (server : Nat → HttpResponse)
    (method : String) (max_retries : Nat) :
    ((server 0).status = 400 →
      makeRequest server method (clientRetryStrategy max_retries)
        = .error (.badRequest (server 0).text) ∧
      requestAttempts server method (clientRetryStrategy max_retries) = 1) ∧
    ((server 0).status = 401 →
      makeRequest server method (clientRetryStrategy max_retries)
        = .error .authInvalidKey ∧
      requestAttempts server method (clientRetryStrategy max_retries) = 1) := by
  constructor
  · intro h
    have hs : sessionRequest server method (clientRetryStrategy max_retries)
        = .response (server 0) 1 := by
      refine sessionLoop_not_forced server method _ _ 0 _ ?_
      rintro ⟨-, hin⟩
      rw [show (clientRetryStrategy max_retries).status_forcelist
            = [429, 500, 502, 503, 504] from rfl, h] at hin
      exact absurd hin (by decide)
    refine ⟨?_, ?_⟩
    · rw [makeRequest, hs]
      simp [h]
    · rw [requestAttempts, hs]
  · intro h
    have hs : sessionRequest server method (clientRetryStrategy max_retries)
        = .response (server 0) 1 := by
      refine sessionLoop_not_forced server method _ _ 0 _ ?_
      rintro ⟨-, hin⟩
      rw [show (clientRetryStrategy max_retries).status_forcelist
            = [429, 500, 502, 503, 504] from rfl, h] at hin
      exact absurd hin (by decide)
    refine ⟨?_, ?_⟩
    · rw [makeRequest, hs]
      simp [h]
    · rw [requestAttempts, hs]

/-- Witness for C7 at concrete 400 (POST) and 401 (GET) servers. -/
theorem http_400_401_no_retry_witness :
    makeRequest (fun _ => { status := 400, text := "boom" }) "POST"
        (clientRetryStrategy 3) = .error (.badRequest "boom") ∧
    makeRequest (fun _ => { status := 401 }) "GET" (clientRetryStrategy 3)
      = .error .authInvalidKey :=
  ⟨((http_400_401_no_retry (fun _ => { status := 400, text := "boom" })
      "POST" 3).1 rfl).1,
   ((http_400_401_no_retry (fun _ => { status := 401 }) "GET" 3).2 rfl).1⟩

/-- C3 (counterexample): the claim fails in both directions.  A GET
server answering 503 on every attempt with `max_retries=3` fails
through the `RequestException` branch (`Network error: ...`), not the
api-failure branch — urllib3's retry exhaustion raises `RetryError`.
And for a POST request (the method of `submit_job`/`cancel_job`) a 503
is never status-retried — POST is outside `Retry`'s default
`allowed_methods` — so it surfaces as api failure after exactly one
attempt rather than being retried up to `max_retries` attempts. -/
theorem retry_exhaustion_not_api_failure :
    makeRequest (fun _ => { status := 503 }) "GET" (clientRetryStrategy 3)
      = .error (.networkError "too many 503 error responses") ∧
    isApiFailure
      (makeRequest (fun _ => { status := 503 }) "GET" (clientRetryStrategy 3))
      = false ∧
    makeRequest (fun _ => { status := 503 }) "POST" (clientRetryStrategy 3)
      = .error (.apiRequestFailed 503) ∧
    requestAttempts (fun _ => { status := 503 }) "POST"
      (clientRetryStrategy 3) = 1 :=
  ⟨rfl, rfl, rfl, rfl⟩

/-- C3 (amended): for a request whose method is in `Retry`'s default
`allowed_methods` (HEAD, GET, PUT, DELETE, OPTIONS, TRACE), statuses in
{429, 500, 502, 503, 504} are retried up to `max_retries` times (so
`max_retries + 1` attempts) with backoff factor 1, and when every
attempt yields such a status the call fails with the network-error
kind; for a method outside that set — POST in particular — such a
status is never retried and surfaces as the api-failure kind after
exactly one attempt; a GET server answering 503 twice then 200 yields
exactly three attempts and a successful return. -/
theorem retry_policy_amended (server : Nat → HttpResponse)
    (method : String) (max_retries : Nat) :
    (method ∈ DEFAULT_ALLOWED_METHODS →
      (∀ j, (server j).status ∈ (clientRetryStrategy max_retries).status_forcelist) →
      makeRequest server method (clientRetryStrategy max_retries)
        = .error (.networkError
            ("too many " ++ toString (server max_retries).status
              ++ " error responses")) ∧
      requestAttempts server method (clientRetryStrategy max_retries)
        = max_retries + 1) ∧
    (method ∉ DEFAULT_ALLOWED_METHODS →
      (server 0).status ∈ (clientRetryStrategy max_retries).status_forcelist →
      makeRequest server method (clientRetryStrategy max_retries)
        = .error (.apiRequestFailed (server 0).status) ∧
      requestAttempts server method (clientRetryStrategy max_retries) = 1) ∧
    (clientRetryStrategy max_retries).backoff_factor = 1 ∧
    (clientRetryStrategy max_retries).status_forcelist
      = [429, 500, 502, 503, 504] ∧
    (clientRetryStrategy max_retries).allowed_methods
      = DEFAULT_ALLOWED_METHODS ∧
    ((server 0).status = 503 → (server 1).status = 503 →
     (server 2).status = 200 →
      makeRequest server "GET" (clientRetryStrategy 3) = .ok (server 2).body ∧
      requestAttempts server "GET" (clientRetryStrategy 3) = 3) := by
  refine ⟨?_, ?_, rfl, rfl, rfl, ?_⟩
  · intro hm hall
    have hs : sessionRequest server method (clientRetryStrategy max_retries)
        = .retryError ((server max_retries).status) (max_retries + 1) := by
      have h := sessionLoop_all_forced server method
        (clientRetryStrategy max_retries).status_forcelist
        (clientRetryStrategy max_retries).allowed_methods hm hall
        max_retries 0
      simpa [sessionRequest] using h
    refine ⟨?_, ?_⟩
    · rw [makeRequest, hs]
    · rw [requestAttempts, hs]
  · intro hmNot hin
    have hs : sessionRequest server method (clientRetryStrategy max_retries)
        = .response (server 0) 1 := by
      refine sessionLoop_not_forced server method _ _ 0 _ ?_
      rintro ⟨hm', -⟩
      exact hmNot hm'
    have hin' : (server 0).status ∈ [429, 500, 502, 503, 504] := hin
    simp only [List.mem_cons, List.not_mem_nil, or_false] at hin'
    refine ⟨?_, ?_⟩
    · rw [makeRequest, hs]
      rcases hin' with h | h | h | h | h <;> simp [h]
    · rw [requestAttempts, hs]
  · intro h0 h1 h2
    have hm : "GET" ∈ DEFAULT_ALLOWED_METHODS := by decide
    have hs : sessionRequest server "GET" (clientRetryStrategy 3)
        = .response (server 2) 3 := by
      have s0 : sessionLoop server "GET" [429, 500, 502, 503, 504]
            DEFAULT_ALLOWED_METHODS 0 3
          = sessionLoop server "GET" [429, 500, 502, 503, 504]
            DEFAULT_ALLOWED_METHODS 1 2 := by
        refine sessionLoop_forced_step server "GET" _ _ 0 2 hm ?_
        rw [h0]; decide
      have s1 : sessionLoop server "GET" [429, 500, 502, 503, 504]
            DEFAULT_ALLOWED_METHODS 1 2
          = sessionLoop server "GET" [429, 500, 502, 503, 504]
            DEFAULT_ALLOWED_METHODS 2 1 := by
        refine sessionLoop_forced_step server "GET" _ _ 1 1 hm ?_
        rw [h1]; decide
      have s2 : sessionLoop server "GET" [429, 500, 502, 503, 504]
            DEFAULT_ALLOWED_METHODS 2 1
          = .response (server 2) 3 := by
        refine sessionLoop_not_forced server "GET" _ _ 2 1 ?_
        rintro ⟨-, hin⟩
        rw [h2] at hin
        exact absurd hin (by decide)
      calc sessionRequest server "GET" (clientRetryStrategy 3)
          = sessionLoop server "GET" [429, 500, 502, 503, 504]
              DEFAULT_ALLOWED_METHODS 0 3 := rfl
        _ = sessionLoop server "GET" [429, 500, 502, 503, 504]
              DEFAULT_ALLOWED_METHODS 1 2 := s0
        _ = sessionLoop server "GET" [429, 500, 502, 503, 504]
              DEFAULT_ALLOWED_METHODS 2 1 := s1
        _ = .response (server 2) 3 := s2
    refine ⟨?_, ?_⟩
    · rw [makeRequest, hs]
      simp [h2]
    · rw [requestAttempts, hs]

/-- Witness for C3 (amended): an all-503 server probed with GET and
with POST, and a 503/503/200 server probed with GET. -/
theorem retry_policy_amended_witness :
    makeRequest (fun _ => { status := 503 }) "GET" (clientRetryStrategy 2)
      = .error (.networkError "too many 503 error responses") ∧
    requestAttempts (fun _ => { status := 503 }) "GET"
      (clientRetryStrategy 2) = 3 ∧
    makeRequest (fun _ => { status := 503 }) "POST" (clientRetryStrategy 2)
      = .error (.apiRequestFailed 503) ∧
    requestAttempts (fun _ => { status := 503 }) "POST"
      (clientRetryStrategy 2) = 1 ∧
    makeRequest (fun i => if i < 2 then { status := 503 }
        else { status := 200, body := JValue.obj [("ok", JValue.bool true)] })
      "GET" (clientRetryStrategy 3)
      = .ok (JValue.obj [("ok", JValue.bool true)]) ∧
    requestAttempts (fun i => if i < 2 then { status := 503 }
        else { status := 200, body := JValue.obj [("ok", JValue.bool true)] })
      "GET" (clientRetryStrategy 3) = 3 := by
  have h1 := (retry_policy_amended (fun _ => { status := 503 }) "GET" 2).1
    (by decide) (fun j => by decide)
  have hp := (retry_policy_amended (fun _ => { status := 503 }) "POST" 2).2.1
    (by decide) (by decide)
  have h2 := (retry_policy_amended (fun i => if i < 2 then { status := 503 }
      else { status := 200, body := JValue.obj [("ok", JValue.bool true)] })
      "GET" 3).2.2.2.2.2 rfl rfl rfl
  exact ⟨h1.1, h1.2, hp.1, hp.2, h2.1, h2.2⟩

/-- C2: when the first terminal record appears at probe `k` (within the
deadline), `wait_for_job` issues exactly `k + 1` probes, invokes a
provided callback once per probe in order (so at least once, even when
the very first record is terminal), returns that first terminal record,
and sleeps only `k` times — never after the terminal observation. -/
theorem wait_for_job_terminal_behavior (get_job : Nat → Except SdkError JValue)
    (f : Nat → JValue) (cb : JValue → Except SdkError Unit)
    (jid : String) (timeout poll k : Nat)
    (hok : ∀ j, j ≤ k → get_job j = .ok (f j))
    (hcb : ∀ j, j ≤ k → cb (f j) = .ok ())
    (hnt : ∀ j, j < k → isTerminal (f j) = false)
    (hterm : isTerminal (f k) = true)
    (htime : k * poll < timeout) (hfuel : k ≤ timeout) :
    wait_for_job get_job jid timeout poll (some cb)
      = some (.ok (f k), ⟨k + 1, (List.range (k + 1)).map f, k⟩) ∧
    wait_for_job get_job jid timeout poll none
      = some (.ok (f k), ⟨k + 1, [], k⟩) ∧
    0 < ((List.range (k + 1)).map f).length := by
  refine ⟨?_, ?_, by simp⟩
  · have h := wait_for_job_first_terminal get_job f (some cb) jid timeout poll k
      hok (fun j hj => by simpa [cbInvoke] using hcb j hj) hnt hterm htime hfuel
    simpa [cbTrace] using h
  · have h := wait_for_job_first_terminal get_job f none jid timeout poll k
      hok (fun j _ => rfl) hnt hterm htime hfuel
    simpa [cbTrace] using h

/-- Witness for C2: the very first probe is already terminal; the
callback still fires once. -/
theorem wait_for_job_terminal_behavior_witness :
    wait_for_job (fun _ => .ok (JValue.obj [("status", JValue.str "completed")]))
        "job-1" 3600 5 (some (fun _ => .ok ()))
      = some (.ok (JValue.obj [("status", JValue.str "completed")]),
          ⟨1, [JValue.obj [("status", JValue.str "completed")]], 0⟩) := by
  have h := (wait_for_job_terminal_behavior
    (fun _ => .ok (JValue.obj [("status", JValue.str "completed")]))
    (fun _ => JValue.obj [("status", JValue.str "completed")])
    (fun _ => .ok ()) "job-1" 3600 5 0
    (fun _ _ => rfl) (fun _ _ => rfl)
    (fun j hj => absurd hj (Nat.not_lt_zero j))
    rfl (by omega) (by omega)).1
  simpa using h

/-- C6: (a) when no probe ever yields a terminal status, `wait_for_job`
raises the job-timeout error after `N` sleeps, where the elapsed time
`N * poll_interval` first reaches `timeout` (so it stays below
`timeout + poll_interval`); (b) an error raised by a `get_job` probe
propagates unchanged; (c) an error raised by the callback propagates
unchanged — neither is converted to the job-timeout error. -/
theorem wait_for_job_timeout_and_propagation
    (get_job : Nat → Except SdkError JValue) (f : Nat → JValue)
    (c : Option (JValue → Except SdkError Unit))
    (jid : String) (timeout poll : Nat) :
    (0 < poll → (∀ j, get_job j = .ok (f j)) →
     (∀ j, (cbInvoke c (f j)).1 = .ok ()) →
     (∀ j, isTerminal (f j) = false) →
      ∃ N, wait_for_job get_job jid timeout poll c
          = some (.error (.jobTimeout jid timeout),
              ⟨N, cbTrace c ((List.range N).map f), N⟩) ∧
        timeout ≤ N * poll ∧ N * poll < timeout + poll) ∧
    (∀ k e, (∀ j, j < k → get_job j = .ok (f j)) →
      (∀ j, j < k → (cbInvoke c (f j)).1 = .ok ()) →
      (∀ j, j < k → isTerminal (f j) = false) →
      get_job k = .error e → k * poll < timeout → k ≤ timeout →
      wait_for_job get_job jid timeout poll c
        = some (.error e, ⟨k + 1, cbTrace c ((List.range k).map f), k⟩)) ∧
    (∀ k e, (∀ j, j ≤ k → get_job j = .ok (f j)) →
      (∀ j, j < k → (cbInvoke c (f j)).1 = .ok ()) →
      (∀ j, j < k → isTerminal (f j) = false) →
      (cbInvoke c (f k)).1 = .error e → k * poll < timeout → k ≤ timeout →
      wait_for_job get_job jid timeout poll c
        = some (.error e, ⟨k + 1, cbTrace c ((List.range (k + 1)).map f), k⟩)) := by
  refine ⟨?_, ?_, ?_⟩
  · intro hpoll hok hcb hnt
    have hbound : timeout + poll ≤ (0 + (timeout + 1)) * poll := by
      have h1 : timeout * 1 ≤ timeout * poll := Nat.mul_le_mul_left timeout hpoll
      have h2 : (0 + (timeout + 1)) * poll = timeout * poll + poll := by ring
      omega
    obtain ⟨N, heq, hlo, hhi⟩ := waitLoop_timeout get_job c timeout poll jid f
      hok hcb hnt (timeout + 1) 0 hbound
    refine ⟨N, ?_, ?_, ?_⟩
    · rw [wait_for_job, heq]
      simp only [Nat.zero_add]
    · simpa using hlo
    · rcases hhi with h | h
      · subst h
        simp only [Nat.zero_add] at hlo
        omega
      · simp only [Nat.zero_add] at h
        have hN : 1 ≤ N := by
          by_contra hc
          push_neg at hc
          interval_cases N
          · simp at hlo
            omega
        have hsplit : N * poll = (N - 1) * poll + poll := by
          have hN1 : N - 1 + 1 = N := by omega
          calc N * poll = (N - 1 + 1) * poll := by rw [hN1]
            _ = (N - 1) * poll + poll := by ring
        omega
  · intro k e hok hcb hnt herr htime hfuel
    rw [wait_for_job]
    have hcomp := waitLoop_compose get_job c timeout poll jid f k (timeout + 1) 0
      (fun j hj => by
        simp only [Nat.zero_add]
        calc j * poll ≤ k * poll := Nat.mul_le_mul_right poll (by omega)
          _ < timeout := htime)
      (fun j hj => by simpa using hok j hj)
      (fun j hj => by simpa using hcb j hj)
      (fun j hj => by simpa using hnt j hj)
      (by omega)
    rw [hcomp]
    simp only [Nat.zero_add]
    obtain ⟨m, hm⟩ : ∃ m, timeout + 1 - k = m + 1 := ⟨timeout - k, by omega⟩
    rw [hm, waitLoop_guard_true get_job c timeout poll jid m k htime, herr]
    simp only [Option.map_some', Option.some.injEq, Prod.mk.injEq,
               WaitTrace.mk.injEq]
    refine ⟨trivial, by omega, by simp, by omega⟩
  · intro k e hok hcb hnt hcberr htime hfuel
    rw [wait_for_job]
    have hcomp := waitLoop_compose get_job c timeout poll jid f k (timeout + 1) 0
      (fun j hj => by
        simp only [Nat.zero_add]
        calc j * poll ≤ k * poll := Nat.mul_le_mul_right poll (by omega)
          _ < timeout := htime)
      (fun j hj => by simpa using hok j (by omega))
      (fun j hj => by simpa using hcb j hj)
      (fun j hj => by simpa using hnt j hj)
      (by omega)
    rw [hcomp]
    simp only [Nat.zero_add]
    obtain ⟨m, hm⟩ : ∃ m, timeout + 1 - k = m + 1 := ⟨timeout - k, by omega⟩
    rw [hm, waitLoop_guard_true get_job c timeout poll jid m k htime,
        hok k (Nat.le_refl k)]
    simp only [hcberr]
    simp only [Option.map_some', Option.some.injEq, Prod.mk.injEq,
               WaitTrace.mk.injEq]
    refine ⟨trivial, by omega, ?_, by omega⟩
    rw [cbInvoke_snd, ← cbTrace_append, List.range_succ, List.map_append,
        List.map_singleton]

/-- Witness for C6: a never-terminal probe stream timing out, a failing
probe, and a failing callback, at concrete inputs. -/
theorem wait_for_job_timeout_and_propagation_witness :
    (∃ N, wait_for_job (fun _ => .ok (JValue.obj [("status", JValue.str "running")]))
        "job-1" 10 4 none
        = some (.error (.jobTimeout "job-1" 10),
            ⟨N, cbTrace none ((List.range N).map
              (fun _ => JValue.obj [("status", JValue.str "running")])), N⟩) ∧
      10 ≤ N * 4 ∧ N * 4 < 10 + 4) ∧
    wait_for_job (fun _ => .error (.networkError "boom")) "job-1" 3600 5 none
      = some (.error (.networkError "boom"), ⟨1, [], 0⟩) ∧
    wait_for_job (fun _ => .ok (JValue.obj [])) "job-1" 3600 5
        (some (fun _ => .error (.badRequest "cb")))
      = some (.error (.badRequest "cb"), ⟨1, [JValue.obj []], 0⟩) := by
  refine ⟨?_, ?_, ?_⟩
  · exact (wait_for_job_timeout_and_propagation
      (fun _ => .ok (JValue.obj [("status", JValue.str "running")]))
      (fun _ => JValue.obj [("status", JValue.str "running")]) none
      "job-1" 10 4).1 (by omega) (fun _ => rfl) (fun _ => rfl) (fun _ => rfl)
  · have h := (wait_for_job_timeout_and_propagation
      (fun _ => .error (.networkError "boom"))
      (fun _ => JValue.obj []) none "job-1" 3600 5).2.1 0 (.networkError "boom")
      (fun j hj => absurd hj (Nat.not_lt_zero j))
      (fun j hj => absurd hj (Nat.not_lt_zero j))
      (fun j hj => absurd hj (Nat.not_lt_zero j))
      rfl (by omega) (by omega)
    simpa [cbTrace] using h
  · have h := (wait_for_job_timeout_and_propagation
      (fun _ => .ok (JValue.obj []))
      (fun _ => JValue.obj [])
      (some (fun _ => .error (.badRequest "cb")))
      "job-1" 3600 5).2.2 0 (.badRequest "cb")
      (fun _ _ => rfl)
      (fun j hj => absurd hj (Nat.not_lt_zero j))
      (fun j hj => absurd hj (Nat.not_lt_zero j))
      rfl (by omega) (by omega)
    simpa [cbTrace] using h

/-- C4: with `wait=true`, once polling observes a terminal status `s`,
`quick_run_docker` returns exactly the `get_job_result` record when
`s = "completed"` and otherwise fails with the job-failure error
carrying `s`; with `wait=false` it returns the submitted job record
unchanged and issues no probe. -/
theorem quick_run_docker_contract (image : String) (command : List String)
    (job : JValue) (jid : String) (f : Nat → JValue)
    (get_job_resp : Nat → Except SdkError JValue)
    (result_resp : String → Except SdkError JValue) (k : Nat) (s : String)
    (hid : jget job "id" = some (JValue.str jid))
    (hok : ∀ j, j ≤ k → get_job_resp j = .ok (f j))
    (hnt : ∀ j, j < k → isTerminal (f j) = false)
    (hst : jget (f k) "status" = some (JValue.str s))
    (hterm : terminal_statuses.contains s = true)
    (htime : k * 5 < 3600) (hfuel : k ≤ 3600) :
    quick_run_docker image command true (.ok job) get_job_resp result_resp
      = some ((if s = "completed" then result_resp jid
               else .error (.jobFailed s)), k + 1) ∧
    quick_run_docker image command false (.ok job) get_job_resp result_resp
      = some (.ok job, 0) := by
  constructor
  · have hterm' : isTerminal (f k) = true := by
      rw [isTerminal, hst]
      exact hterm
    have hwait := wait_for_job_first_terminal get_job_resp f none jid 3600 5 k
      hok (fun j _ => rfl) hnt hterm' htime hfuel
    rw [quick_run_docker]
    simp only [hid, if_pos]
    rw [show pyStr (JValue.str jid) = jid from rfl, hwait]
    simp only [hst]
    by_cases hs : s = "completed"
    · simp [statusIsCompleted, hs]
    · simp [statusIsCompleted, hs, pyStr]
  · rfl

/-- Witness for C4: a server that completes the job immediately and
returns the result record `{"exit": 0, "stdout": "hi"}`. -/
theorem quick_run_docker_contract_witness :
    quick_run_docker "img" ["echo", "hi"] true
        (.ok (JValue.obj [("id", JValue.str "job-1")]))
        (fun _ => .ok (JValue.obj [("status", JValue.str "completed")]))
        (fun _ => .ok (JValue.obj [("exit", JValue.int 0),
                                   ("stdout", JValue.str "hi")]))
      = some (.ok (JValue.obj [("exit", JValue.int 0),
                               ("stdout", JValue.str "hi")]), 1) ∧
    quick_run_docker "img" ["echo", "hi"] false
        (.ok (JValue.obj [("id", JValue.str "job-1")]))
        (fun _ => .ok (JValue.obj [("status", JValue.str "completed")]))
        (fun _ => .ok (JValue.obj [("exit", JValue.int 0),
                                   ("stdout", JValue.str "hi")]))
      = some (.ok (JValue.obj [("id", JValue.str "job-1")]), 0) := by
  have h := quick_run_docker_contract "img" ["echo", "hi"]
    (JValue.obj [("id", JValue.str "job-1")]) "job-1"
    (fun _ => JValue.obj [("status", JValue.str "completed")])
    (fun _ => .ok (JValue.obj [("status", JValue.str "completed")]))
    (fun _ => .ok (JValue.obj [("exit", JValue.int 0),
                               ("stdout", JValue.str "hi")]))
    0 "completed" rfl (fun _ _ => rfl)
    (fun j hj => absurd hj (Nat.not_lt_zero j))
    rfl rfl (by omega) (by omega)
  exact ⟨by simpa using h.1, h.2⟩

end ComputeHive
